import Mathlib

/-!
Shallow embedding of the `ScrollContainer` React component
(`src/unnamed/part_000`) and of `defaultMessageContext`
(`src/frontend/src/contexts/MessageContext.tsx`) from the chainlit
frontend slice, with theorems checking the repository specification.

Modelling conventions:
* DOM measurement scalars (`scrollTop`, `scrollHeight`, `clientHeight`,
  `offsetTop`, `offsetHeight`) are integers.
* `ref.current` and `spacerRef.current` are both attached exactly when the
  component is mounted (they sit unconditionally in the same JSX tree), so a
  single `refAttached` flag models both null checks.
* `element.scrollTo({top, behavior: 'smooth'})` starts an asynchronous smooth
  scroll; it is modelled by recording the target in `scrollTarget`.  The
  position after the animation settles is the target.  A direct assignment
  `scrollTop = v` is instantaneous and cancels a pending smooth scroll, so it
  writes `scrollTop` and clears `scrollTarget`.
* The `checkScrollEnd` polling chain reads `scrollTop` once per 100ms tick;
  those reads are supplied as a list of samples (the DOM position over time).
-/

namespace Chainlit

/-- A message record; only the `type` discriminator is used by the code. -/
structure Message where
  type : String
deriving Repr, DecidableEq

/-- Layout measurements of a rendered DOM node (a user-message element). -/
structure NodeRect where
  offsetTop : Int
  offsetHeight : Int
deriving Repr, DecidableEq

/-- The mutable state of one mounted `ScrollContainer`:
the React refs, the two `useState` cells, the DOM geometry of the scroll
container, the spacer height, and the optional caller-supplied
`autoScrollRef` boolean ref. -/
structure ScrollState where
  refAttached : Bool
  lastUserMessageRef : Option NodeRect
  scrollTop : Int
  scrollHeight : Int
  clientHeight : Int
  spacerHeight : Int
  scrollTarget : Option Int
  showScrollButton : Bool
  isScrolling : Bool
  autoScrollRef : Option Bool
deriving Repr, DecidableEq

/-- `scrollTop + clientHeight >= scrollHeight - 10`, the bottom test used at
every button-visibility recomputation in the source. -/
def atBottom (scrollTop scrollHeight clientHeight : Int) : Bool :=
  decide (scrollTop + clientHeight ≥ scrollHeight - 10)

/-- The scroll position once any pending smooth scroll has settled. -/
def settledScrollTop (s : ScrollState) : Int :=
  s.scrollTarget.getD s.scrollTop

/-- `updateSpacerHeight` (part_000 lines 40-64): no-op unless the container,
spacer and last-user-message refs are all attached; while streaming it sets
the spacer to `max 0 (clientHeight - (lastMessageTop + lastMessageHeight) + 20)`
and assigns `scrollTop = lastMessageTop - 20`; otherwise it zeroes the
spacer. -/
def updateSpacerHeight (isStreaming : Bool) (s : ScrollState) : ScrollState :=
  if s.refAttached = false then s
  else
    match s.lastUserMessageRef with
    | none => s
    | some m =>
      if isStreaming then
        let newSpacerHeight := max 0 (s.clientHeight - (m.offsetTop + m.offsetHeight) + 20)
        { s with
          spacerHeight := newSpacerHeight
          scrollTop := m.offsetTop - 20
          scrollTarget := none }
      else
        { s with spacerHeight := 0 }

/-- `scrollToBottom` (part_000 lines 153-168): sets `isScrolling`, starts a
smooth scroll to `scrollHeight`, forces `autoScrollRef.current = true` when
the ref was supplied, and hides the button.  The trailing `checkScrollEnd()`
polling chain is modelled separately by `checkScrollEndRun`. -/
def scrollToBottom (s : ScrollState) : ScrollState :=
  if s.refAttached = false then s
  else
    let s1 := { s with isScrolling := true, scrollTarget := some s.scrollHeight }
    let s2 :=
      match s1.autoScrollRef with
      | some _ => { s1 with autoScrollRef := some true }
      | none => s1
    { s2 with showScrollButton := false }

/-- `scrollToPosition` (part_000 lines 170-189): sets `isScrolling`, starts a
smooth scroll to `lastUserMessageRef.offsetTop - 20`, then (in the
`requestAnimationFrame` callback, inlined here) runs `updateSpacerHeight` and
hides the button.  The trailing `checkScrollEnd()` is modelled separately. -/
def scrollToPosition (isStreaming : Bool) (s : ScrollState) : ScrollState :=
  if s.refAttached = false then s
  else
    match s.lastUserMessageRef with
    | none => s
    | some m =>
      let s1 := { s with isScrolling := true, scrollTarget := some (m.offsetTop - 20) }
      let s2 := updateSpacerHeight isStreaming s1
      { s2 with showScrollButton := false }

/-- The message-update `useEffect` (part_000 lines 67-99).
`domUserMessages` is the result of
`querySelectorAll('[data-step-type="user_message"]')`, in document order. -/
def messagesEffect (isStreaming : Bool) (messages : List Message)
    (domUserMessages : List NodeRect) (s : ScrollState) : ScrollState :=
  if s.refAttached = false then s
  else if messages.isEmpty then { s with spacerHeight := 0 }
  else
    match domUserMessages.getLast? with
    | none => s
    | some lastUserMessage =>
      let s1 := { s with lastUserMessageRef := some lastUserMessage }
      let s2 :=
        if messages.getLast?.map Message.type = some "user_message" then
          scrollToPosition isStreaming s1
        else if isStreaming = false then
          scrollToBottom s1
        else s1
      updateSpacerHeight isStreaming s2

/-- The window-resize handler (part_000 lines 105-107), installed only when
`autoScrollUserMessage` is set: it just calls `updateSpacerHeight`. -/
def handleResize (isStreaming : Bool) (s : ScrollState) : ScrollState :=
  updateSpacerHeight isStreaming s

/-- The initial-mount check (part_000 lines 120-130): after a 500ms delay it
recomputes `showScrollButton` from the current geometry. -/
def initialScrollCheck (s : ScrollState) : ScrollState :=
  if s.refAttached = false then s
  else
    { s with showScrollButton := !(atBottom s.scrollTop s.scrollHeight s.clientHeight) }

/-- `handleScroll` (part_000 lines 191-201): suppressed while `isScrolling`;
otherwise writes `autoScrollRef.current = atBottom` when the ref was supplied
and recomputes the button from `atBottom`. -/
def handleScroll (s : ScrollState) : ScrollState :=
  if s.refAttached = false ∨ s.isScrolling then s
  else
    let ab := atBottom s.scrollTop s.scrollHeight s.clientHeight
    let s1 :=
      match s.autoScrollRef with
      | some _ => { s with autoScrollRef := some ab }
      | none => s
    { s1 with showScrollButton := !ab }

/-- The body of the equal-samples branch of `checkScrollEnd` (part_000 lines
141-146): clear `isScrolling` and recompute the button from the position
`cur` at which the scroll stopped. -/
def checkScrollEndSettle (cur : Int) (s : ScrollState) : ScrollState :=
  { s with
    isScrolling := false
    scrollTop := cur
    scrollTarget := none
    showScrollButton := !(atBottom cur s.scrollHeight s.clientHeight) }

/-- `checkScrollEnd` (part_000 lines 132-151): a re-entrant timer chain that
samples `scrollTop` every 100ms.  `prev` is the sample taken when the chain
was started, `samples` the positions at the following ticks.  The result is
`some (k, s')` when the chain stops at tick `k` (0-based into `samples`),
`none` when the supplied observation window ends before two consecutive
samples agree (in the browser the chain would simply keep polling). -/
def checkScrollEndRun (prev : Int) (samples : List Int) (s : ScrollState) :
    Option (Nat × ScrollState) :=
  match samples with
  | [] => none
  | cur :: rest =>
    if cur = prev then some (0, checkScrollEndSettle cur s)
    else (checkScrollEndRun cur rest s).map (fun p => (p.1 + 1, p.2))

/-- The shape of `IMessageContext` as used by `defaultMessageContext`
(MessageContext.tsx lines 5-16); callbacks are modelled opaquely. -/
structure IMessageContext where
  highlightedMessage : Option String
  loading : Bool
  editable : Bool
  onElementRefClick : Option (Unit → Unit)
  onFeedbackUpdated : Option (Unit → Unit)
  showFeedbackButtons : Bool
  onError : Unit → Unit
  uiName : String
  cot : String
  isStreaming : Bool

/-- `defaultMessageContext` (MessageContext.tsx lines 5-16). -/
def defaultMessageContext : IMessageContext where
  highlightedMessage := none
  loading := false
  editable := false
  onElementRefClick := none
  onFeedbackUpdated := none
  showFeedbackButtons := true
  onError := fun _ => ()
  uiName := ""
  cot := "hidden"
  isStreaming := false

/-- A concrete rendered user-message node, used by witness instantiations. -/
def sampleRect : NodeRect where
  offsetTop := 100
  offsetHeight := 30

/-- A concrete mounted component state, used by witness instantiations. -/
def sampleState : ScrollState where
  refAttached := true
  lastUserMessageRef := some sampleRect
  scrollTop := 0
  scrollHeight := 500
  clientHeight := 200
  spacerHeight := 7
  scrollTarget := none
  showScrollButton := true
  isScrolling := false
  autoScrollRef := some false

/-- Helper: when the polling chain stops at step `k`, sample `k` equals the
sample before it (`(prev :: samples)[k]?` is the predecessor of
`samples[k]?`), no earlier consecutive pair was equal, and the final state is
the settle state at that sample. -/
theorem checkScrollEndRun_some_spec (prev : Int) (samples : List Int)
    (s : ScrollState) (k : Nat) (s' : ScrollState)
    (h : checkScrollEndRun prev samples s = some (k, s')) :
    ∃ cur, samples[k]? = some cur ∧ (prev :: samples)[k]? = some cur ∧
      (∀ j, j < k → samples[j]? ≠ (prev :: samples)[j]?) ∧
      s' = checkScrollEndSettle cur s := by
  induction samples generalizing prev k with
  | nil => simp [checkScrollEndRun] at h
  | cons cur rest ih =>
    by_cases hc : cur = prev
    · rw [checkScrollEndRun, if_pos hc] at h
      simp only [Option.some.injEq, Prod.mk.injEq] at h
      obtain ⟨hk, hs⟩ := h
      subst hk
      refine ⟨cur, by simp, by simp [hc], ?_, hs.symm⟩
      intro j hj
      omega
    · rw [checkScrollEndRun, if_neg hc] at h
      obtain ⟨⟨k0, s0⟩, hrun, heq⟩ := Option.map_eq_some'.mp h
      simp only [Prod.mk.injEq] at heq
      obtain ⟨hk, hs⟩ := heq
      subst hk
      subst hs
      obtain ⟨c, h1, h2, h3, h4⟩ := ih cur k0 hrun
      refine ⟨c, by simpa using h1, by simpa using h2, ?_, h4⟩
      intro j hj
      cases j with
      | zero => simp [hc]
      | succ j0 =>
        have hj0 := h3 j0 (by omega)
        simpa using hj0

/-- Helper: when the observation window ends without the chain stopping, no
two consecutive samples in the window were equal. -/
theorem checkScrollEndRun_none_spec (prev : Int) (samples : List Int)
    (s : ScrollState) (h : checkScrollEndRun prev samples s = none) :
    ∀ j, j < samples.length → samples[j]? ≠ (prev :: samples)[j]? := by
  induction samples generalizing prev with
  | nil =>
    intro j hj
    simp at hj
  | cons cur rest ih =>
    by_cases hc : cur = prev
    · rw [checkScrollEndRun, if_pos hc] at h
      exact absurd h (by simp)
    · rw [checkScrollEndRun, if_neg hc] at h
      have hrest : checkScrollEndRun cur rest s = none := Option.map_eq_none'.mp h
      intro j hj
      cases j with
      | zero => simp [hc]
      | succ j0 =>
        have hj0 := ih cur hrest j0 (by simpa using hj)
        simpa using hj0

/-- C1: with the container, spacer and last-user-message refs attached,
`updateSpacerHeight` sets the spacer to
`max 0 (containerHeight - (lastUserMessageTop + lastUserMessageHeight) + 20)`
while streaming and to exactly `0` while not streaming; in either case the
computed spacer height is never negative. -/
theorem updateSpacerHeight_formula (b : Bool) (s : ScrollState) (m : NodeRect)
    (href : s.refAttached = true) (hm : s.lastUserMessageRef = some m) :
    (updateSpacerHeight b s).spacerHeight =
      (if b then max 0 (s.clientHeight - (m.offsetTop + m.offsetHeight) + 20) else 0) ∧
    0 ≤ (updateSpacerHeight b s).spacerHeight := by
  cases b <;> simp [updateSpacerHeight, href, hm]

/-- Witness for C1: the spacer formula evaluated at a concrete streaming
state. -/
theorem updateSpacerHeight_formula_witness :
    (updateSpacerHeight true sampleState).spacerHeight =
      (if true then
        max 0 (sampleState.clientHeight - (sampleRect.offsetTop + sampleRect.offsetHeight) + 20)
      else 0) ∧
    0 ≤ (updateSpacerHeight true sampleState).spacerHeight :=
  updateSpacerHeight_formula true sampleState sampleRect rfl rfl

/-- C5 counterexample: the claim says `showFeedbackButtons` defaults to
`false`, but in `defaultMessageContext` it is `true`. -/
theorem defaultContext_showFeedbackButtons_not_false :
    ¬ (defaultMessageContext.showFeedbackButtons = false) := by
  simp [defaultMessageContext]

/-- C5 (amended): in `defaultMessageContext` the flags `loading`, `editable`
and `isStreaming` default to `false`, `showFeedbackButtons` defaults to
`true`, the chain-of-thought mode defaults to `"hidden"`, the highlighted
message and the optional callbacks are absent, and `onError` is a no-op. -/
theorem defaultContext_defaults :
    defaultMessageContext.loading = false ∧
    defaultMessageContext.editable = false ∧
    defaultMessageContext.isStreaming = false ∧
    defaultMessageContext.showFeedbackButtons = true ∧
    defaultMessageContext.cot = "hidden" ∧
    defaultMessageContext.highlightedMessage = none ∧
    defaultMessageContext.onElementRefClick = none ∧
    defaultMessageContext.onFeedbackUpdated = none ∧
    defaultMessageContext.onError () = () :=
  ⟨rfl, rfl, rfl, rfl, rfl, rfl, rfl, rfl, rfl⟩

/-- C6: on a message-list update with an empty list (component mounted), the
effect resets the spacer height to zero and changes nothing else: the
resulting state equals the input state with only `spacerHeight` set to 0. -/
theorem emptyMessages_resets_spacer (b : Bool) (dom : List NodeRect)
    (s : ScrollState) (href : s.refAttached = true) :
    messagesEffect b [] dom s = { s with spacerHeight := 0 } := by
  simp [messagesEffect, href]

/-- Witness for C6 at a concrete state. -/
theorem emptyMessages_resets_spacer_witness :
    messagesEffect true [] [] sampleState = { sampleState with spacerHeight := 0 } :=
  emptyMessages_resets_spacer true [] sampleState rfl

/-- C9: on a message-list update with a non-empty list but no rendered
user-message node, the effect is a complete no-op: the state is returned
unchanged (no scroll started, spacer untouched), for any streaming flag. -/
theorem noUserNodes_noop (b : Bool) (messages : List Message) (s : ScrollState)
    (href : s.refAttached = true) (hne : messages ≠ []) :
    messagesEffect b messages [] s = s := by
  cases messages with
  | nil => exact absurd rfl hne
  | cons m ms => simp [messagesEffect, href]

/-- Witness for C9: a single assistant message, no user nodes, not
streaming. -/
theorem noUserNodes_noop_witness :
    messagesEffect false [⟨"assistant_message"⟩] [] sampleState = sampleState :=
  noUserNodes_noop false [⟨"assistant_message"⟩] sampleState rfl (by simp)

/-- C2: on a message-list update (component mounted) where the most recent
message has type `user_message` and a rendered user-message node exists, the
settled viewport scroll position equals the last user-message node's
`offsetTop` minus the 20px padding constant, for any streaming flag. -/
theorem userMessage_scroll_position (b : Bool) (messages : List Message)
    (dom : List NodeRect) (s : ScrollState) (m : NodeRect)
    (href : s.refAttached = true)
    (hlast : messages.getLast?.map Message.type = some "user_message")
    (hdom : dom.getLast? = some m) :
    settledScrollTop (messagesEffect b messages dom s) = m.offsetTop - 20 := by
  have hne : messages.isEmpty = false := by
    cases messages with
    | nil => simp at hlast
    | cons x xs => simp
  cases b <;>
    simp [messagesEffect, scrollToPosition, updateSpacerHeight, settledScrollTop,
      href, hdom, hlast, hne]

/-- Witness for C2: one user message, one rendered user node, streaming. -/
theorem userMessage_scroll_position_witness :
    settledScrollTop (messagesEffect true [⟨"user_message"⟩] [sampleRect] sampleState) =
      sampleRect.offsetTop - 20 :=
  userMessage_scroll_position true [⟨"user_message"⟩] [sampleRect] sampleState
    sampleRect rfl rfl rfl

/-- C3 counterexample: a non-empty message list whose most recent message is
not a user message, not streaming, but no rendered user-message node in the
DOM: the effect does not scroll at all, so the settled position is not the
maximum scrollable offset. -/
theorem notStreaming_scrollBottom_counterexample :
    ¬ (settledScrollTop
        (messagesEffect false [⟨"assistant_message"⟩] [] sampleState) =
        sampleState.scrollHeight) := by
  decide

/-- C3 (amended): on a message-list update (component mounted) where
`isStreaming` is false, the most recent message is not a user message and at
least one rendered user-message node exists, the viewport scroll target is
set to `scrollHeight` and the settled position equals `scrollHeight`. -/
theorem notStreaming_scrollsToBottom (messages : List Message)
    (dom : List NodeRect) (s : ScrollState) (m : NodeRect)
    (href : s.refAttached = true) (hmsgs : messages ≠ [])
    (hlast : messages.getLast?.map Message.type ≠ some "user_message")
    (hdom : dom.getLast? = some m) :
    (messagesEffect false messages dom s).scrollTarget = some s.scrollHeight ∧
    settledScrollTop (messagesEffect false messages dom s) = s.scrollHeight := by
  have hne : messages.isEmpty = false := by
    cases messages with
    | nil => exact absurd rfl hmsgs
    | cons x xs => simp
  rcases ha : s.autoScrollRef with _ | b0 <;>
    simp [messagesEffect, scrollToBottom, updateSpacerHeight, settledScrollTop,
      href, hdom, hlast, hne, ha]

/-- Witness for C3 (amended): an assistant message last, one rendered user
node, not streaming. -/
theorem notStreaming_scrollsToBottom_witness :
    (messagesEffect false [⟨"assistant_message"⟩] [sampleRect] sampleState).scrollTarget =
      some sampleState.scrollHeight ∧
    settledScrollTop (messagesEffect false [⟨"assistant_message"⟩] [sampleRect] sampleState) =
      sampleState.scrollHeight :=
  notStreaming_scrollsToBottom [⟨"assistant_message"⟩] [sampleRect] sampleState
    sampleRect rfl (by decide) (by decide) rfl

/-- C7: when the caller supplied `autoScrollRef`, every programmatic
scroll-to-bottom (component mounted) sets it to `true`, and every
non-suppressed user scroll event sets it to whether the viewport is within
the 10px bottom threshold; when it was not supplied, neither path writes
it. -/
theorem autoScrollRef_updates :
    (∀ (s : ScrollState) (b0 : Bool), s.refAttached = true →
       s.autoScrollRef = some b0 → (scrollToBottom s).autoScrollRef = some true) ∧
    (∀ (s : ScrollState) (b0 : Bool), s.refAttached = true → s.isScrolling = false →
       s.autoScrollRef = some b0 →
       (handleScroll s).autoScrollRef =
         some (atBottom s.scrollTop s.scrollHeight s.clientHeight)) ∧
    (∀ s : ScrollState, s.autoScrollRef = none →
       (scrollToBottom s).autoScrollRef = none ∧ (handleScroll s).autoScrollRef = none) := by
  refine ⟨?_, ?_, ?_⟩
  · intro s b0 href ha
    simp [scrollToBottom, href, ha]
  · intro s b0 href hsc ha
    simp [handleScroll, href, hsc, ha]
  · intro s ha
    constructor
    · cases hr : s.refAttached <;> simp [scrollToBottom, hr, ha]
    · cases hr : s.refAttached <;> cases hsc : s.isScrolling <;>
        simp [handleScroll, hr, hsc, ha]

/-- Witness for C7 at a concrete state whose `autoScrollRef` is supplied as
`some false`. -/
theorem autoScrollRef_updates_witness :
    (scrollToBottom sampleState).autoScrollRef = some true ∧
    (handleScroll sampleState).autoScrollRef =
      some (atBottom sampleState.scrollTop sampleState.scrollHeight
        sampleState.clientHeight) :=
  ⟨autoScrollRef_updates.1 sampleState false rfl rfl,
   autoScrollRef_updates.2.1 sampleState false rfl rfl rfl⟩

/-- C10: while streaming, every `updateSpacerHeight` call with the refs
attached also pins the scroll position, setting `scrollTop` to
`lastUserMessageTop - 20` immediately (cancelling any pending smooth
scroll); the resize handler is exactly `updateSpacerHeight`. -/
theorem streamingSpacer_repins_scroll (s : ScrollState) (m : NodeRect)
    (href : s.refAttached = true) (hm : s.lastUserMessageRef = some m) :
    (updateSpacerHeight true s).scrollTop = m.offsetTop - 20 ∧
    (updateSpacerHeight true s).scrollTarget = none ∧
    handleResize true s = updateSpacerHeight true s := by
  refine ⟨?_, ?_, rfl⟩ <;> simp [updateSpacerHeight, href, hm]

/-- Witness for C10 at a concrete streaming state. -/
theorem streamingSpacer_repins_scroll_witness :
    (updateSpacerHeight true sampleState).scrollTop = sampleRect.offsetTop - 20 ∧
    (updateSpacerHeight true sampleState).scrollTarget = none ∧
    handleResize true sampleState = updateSpacerHeight true sampleState :=
  streamingSpacer_repins_scroll sampleState sampleRect rfl rfl

/-- C4: after every visibility recomputation — a non-suppressed user scroll
event, the settling step of a programmatic scroll, or the initial-mount
check — the scroll-to-bottom button is hidden exactly when
`scrollTop + clientHeight >= scrollHeight - 10`, the 10px bottom
threshold (at settling, `scrollTop` is the sample at which the chain
stopped). -/
theorem button_hidden_iff_atBottom :
    (∀ s : ScrollState, s.refAttached = true → s.isScrolling = false →
       ((handleScroll s).showScrollButton = false ↔
         s.scrollTop + s.clientHeight ≥ s.scrollHeight - 10)) ∧
    (∀ s : ScrollState, s.refAttached = true →
       ((initialScrollCheck s).showScrollButton = false ↔
         s.scrollTop + s.clientHeight ≥ s.scrollHeight - 10)) ∧
    (∀ (prev : Int) (samples : List Int) (s : ScrollState) (k : Nat)
       (s' : ScrollState), checkScrollEndRun prev samples s = some (k, s') →
       ∃ cur, samples[k]? = some cur ∧
         (s'.showScrollButton = false ↔
           cur + s.clientHeight ≥ s.scrollHeight - 10)) := by
  refine ⟨?_, ?_, ?_⟩
  · intro s href hsc
    rcases ha : s.autoScrollRef with _ | b0 <;>
      simp [handleScroll, atBottom, href, hsc, ha]
  · intro s href
    simp [initialScrollCheck, atBottom, href]
  · intro prev samples s k s' h
    obtain ⟨cur, h1, _h2, _h3, h4⟩ := checkScrollEndRun_some_spec prev samples s k s' h
    exact ⟨cur, h1, by simp [h4, checkScrollEndSettle, atBottom]⟩

/-- Witness for C4: the user-scroll recomputation at a concrete state far
from the bottom. -/
theorem button_hidden_iff_atBottom_witness :
    (handleScroll sampleState).showScrollButton = false ↔
      sampleState.scrollTop + sampleState.clientHeight ≥
        sampleState.scrollHeight - 10 :=
  button_hidden_iff_atBottom.1 sampleState rfl rfl

/-- C8: the `checkScrollEnd` polling chain samples `scrollTop` at a fixed
interval; it stops exactly at the first step where two consecutive samples
agree — there it clears `isScrolling` and recomputes the button — and while
every consecutive pair differs (chain still running at the end of the
observation window) `isScrolling` has not been cleared and no earlier pair
was equal. -/
theorem checkScrollEnd_polling (prev : Int) (samples : List Int) (s : ScrollState) :
    (∀ k s', checkScrollEndRun prev samples s = some (k, s') →
       ∃ cur, samples[k]? = some cur ∧ (prev :: samples)[k]? = some cur ∧
         (∀ j, j < k → samples[j]? ≠ (prev :: samples)[j]?) ∧
         s'.isScrolling = false ∧
         s'.showScrollButton = !(atBottom cur s.scrollHeight s.clientHeight)) ∧
    (checkScrollEndRun prev samples s = none →
       ∀ j, j < samples.length → samples[j]? ≠ (prev :: samples)[j]?) := by
  constructor
  · intro k s' h
    obtain ⟨cur, h1, h2, h3, h4⟩ := checkScrollEndRun_some_spec prev samples s k s' h
    exact ⟨cur, h1, h2, h3, by simp [h4, checkScrollEndSettle],
      by simp [h4, checkScrollEndSettle]⟩
  · exact checkScrollEndRun_none_spec prev samples s

/-- Witness for C8: a chain started at position 0 that observes samples 5, 5
stops at the second tick. -/
theorem checkScrollEnd_polling_witness :
    ∃ cur, ([5, 5] : List Int)[1]? = some cur ∧
      (((0 : Int) :: [5, 5]))[1]? = some cur ∧
      (∀ j, j < 1 → ([5, 5] : List Int)[j]? ≠ (((0 : Int) :: [5, 5]))[j]?) ∧
      (checkScrollEndSettle 5 sampleState).isScrolling = false ∧
      (checkScrollEndSettle 5 sampleState).showScrollButton =
        !(atBottom cur sampleState.scrollHeight sampleState.clientHeight) :=
  (checkScrollEnd_polling 0 [5, 5] sampleState).1 1
    (checkScrollEndSettle 5 sampleState) (by decide)

end Chainlit
